import Mathlib

/-!
Verification of the audio transcoding core of the repository
(src/server/services/tts_sarvam.js) against its natural language
specification.

The JavaScript source is shallowly embedded below:
* pure functions (`encodeMuLaw`, `detectAudioFormat`) become Lean functions
  over `Int` / `List Nat`, with the ECMAScript 32-bit operator semantics
  made explicit (`toUint32`, `asInt32`, `jsAnd`, `jsOr`, `jsNot`, `jsShl`,
  `jsShr`);
* the external collaborators that are not part of the repository (the
  wavefile library, the ffmpeg subprocess, the Sarvam HTTP API and base64
  decoding) are abstracted as record fields of explicit environment
  structures (`WaveLib`, `ConvEnv`, `SarvamEnv`), so that the control flow
  of `convertToUlaw` and `sarvamTTS` is embedded faithfully while the
  collaborators stay opaque parameters;
* JavaScript async control flow is embedded by explicit result values.
  One consequence is modelled with care: in `convertToUlaw` the ffmpeg
  `Promise` is returned from inside the `try` block WITHOUT `await`
  (line 219 of the source), so a rejection of that promise is never seen
  by the `catch` at lines 270-273 and reaches the caller unwrapped; the
  inner `catch` at line 206 only logs and falls through to the ffmpeg
  stage.  Hence in the embedding the ffmpeg failure messages are produced
  exactly as written at lines 255 and 262 and no reachable path produces
  the "Audio format conversion failed" umbrella message.
-/

set_option maxRecDepth 8000

/-! ### ECMAScript 32-bit operator semantics

JavaScript bitwise operators first convert their operands with ToInt32 /
ToUint32 (reduction modulo 2 to the 32) and operate on the 32-bit two
complement pattern.  All shift counts appearing in the source are
nonnegative constants below 32, so the shift operators are embedded with a
`Nat` count (the `% 32` masking of ECMAScript is kept).  The bitwise AND
and OR are computed bit by bit with 32 units of structural fuel so that
every definition reduces in the kernel. -/

/-- ToUint32 of an integral JavaScript number: reduction modulo 2 ^ 32. -/
def toUint32 (x : Int) : Nat := (x % 4294967296).toNat

/-- Reading a 32-bit pattern as a signed two complement value (ToInt32). -/
def asInt32 (u : Nat) : Int :=
  if u < 2147483648 then (u : Int) else (u : Int) - 4294967296

/-- Bitwise AND on natural numbers, computed on `fuel` low bits.
With `fuel = 32` this is the AND of 32-bit patterns. -/
def natAndAux : Nat → Nat → Nat → Nat
  | 0, _, _ => 0
  | fuel + 1, a, b =>
      (if a % 2 = 1 ∧ b % 2 = 1 then 1 else 0) + 2 * natAndAux fuel (a / 2) (b / 2)

/-- Bitwise OR on natural numbers, computed on `fuel` low bits. -/
def natOrAux : Nat → Nat → Nat → Nat
  | 0, _, _ => 0
  | fuel + 1, a, b =>
      (if a % 2 = 1 ∨ b % 2 = 1 then 1 else 0) + 2 * natOrAux fuel (a / 2) (b / 2)

/-- JavaScript `a & b` on integral numbers. -/
def jsAnd (a b : Int) : Int := asInt32 (natAndAux 32 (toUint32 a) (toUint32 b))

/-- JavaScript `a | b` on integral numbers. -/
def jsOr (a b : Int) : Int := asInt32 (natOrAux 32 (toUint32 a) (toUint32 b))

/-- JavaScript `~a` on integral numbers: flip the 32-bit pattern of
ToInt32(a), which equals `-(ToInt32 a + 1)` (the result is again in the
signed 32-bit range). -/
def jsNot (a : Int) : Int := -(asInt32 (toUint32 a) + 1)

/-- JavaScript `a >> b` (sign propagating right shift) for a nonnegative
integral count: floor division of ToInt32(a) by 2 ^ (b % 32).  Division
on `Int` in Lean is euclidean division, which agrees with floor division
because the divisor is positive. -/
def jsShr (a : Int) (b : Nat) : Int := asInt32 (toUint32 a) / (2 ^ (b % 32) : Nat)

/-- JavaScript `a << b` for a nonnegative integral count: multiply
ToInt32(a) by 2 ^ (b % 32) and wrap back into the signed 32-bit range. -/
def jsShl (a : Int) (b : Nat) : Int :=
  asInt32 (toUint32 (asInt32 (toUint32 a) * (2 ^ (b % 32) : Nat)))

/-! ### The mu-law encoder (source lines 281-321)

`encodeMuLaw` is the line by line embedding of the source function.  The
`let sample := ...` bindings model the successive reassignments of the
JavaScript variable `sample`, and the two `let exponent := ...` bindings
model the preliminary search loop (lines 296-302) followed by the explicit
threshold chain (lines 305-312) that reassigns `exponent`.  The exponent
is a number in 0..7 in every reachable state, so it is carried as a `Nat`. -/

/-- The preliminary exponent search loop of lines 296-302:
`exponent = 7; for (exp = 0; exp < 8; exp++) if (sample < (1 << (exp+5))) break with exponent = exp`.
`fuel` counts the remaining iterations (8 at the initial call);
if no iteration breaks, the initial value 7 is kept. -/
def muLawLoop (sample : Int) : Nat → Nat → Nat
  | 0, _ => 7
  | fuel + 1, exp =>
      if sample < jsShl 1 (exp + 5) then exp else muLawLoop sample fuel (exp + 1)

/-- Source function `encodeMuLaw` (lines 281-321). -/
def encodeMuLaw (sample : Int) : Int :=
  let sign := jsAnd (jsShr sample 8) 0x80
  let sample := if sign ≠ 0 then -sample else sample
  let sample := if sample > 32635 then 32635 else sample
  let sample := sample + 0x84
  let exponent := muLawLoop sample 8 0
  let exponent :=
    if sample > 0x7FFF then 7
    else if sample > 0x3FFF then 6
    else if sample > 0x1FFF then 5
    else if sample > 0x0FFF then 4
    else if sample > 0x07FF then 3
    else if sample > 0x03FF then 2
    else if sample > 0x01FF then 1
    else 0
  let mantissa := jsAnd (jsShr sample (exponent + 3)) 0x0F
  let ulawbyte := jsNot (jsOr (jsOr sign (jsShl (exponent : Int) 4)) mantissa)
  jsAnd ulawbyte 0xFF

/-- The same function with the initial assignment `exponent = 7` and the
preliminary search loop of lines 296-302 removed; used to settle the dead
code claim. -/
def encodeMuLawNoLoop (sample : Int) : Int :=
  let sign := jsAnd (jsShr sample 8) 0x80
  let sample := if sign ≠ 0 then -sample else sample
  let sample := if sample > 32635 then 32635 else sample
  let sample := sample + 0x84
  let exponent :=
    if sample > 0x7FFF then 7
    else if sample > 0x3FFF then 6
    else if sample > 0x1FFF then 5
    else if sample > 0x0FFF then 4
    else if sample > 0x07FF then 3
    else if sample > 0x03FF then 2
    else if sample > 0x01FF then 1
    else (0 : Nat)
  let mantissa := jsAnd (jsShr sample (exponent + 3)) 0x0F
  let ulawbyte := jsNot (jsOr (jsOr sign (jsShl (exponent : Int) 4)) mantissa)
  jsAnd ulawbyte 0xFF

/-- Modelled from the words of spec section 4.4 and of the claim: sign bit
0x80 for negative samples whose magnitude is then negated, clip to 32635,
bias 132, exponent by the explicit threshold chain, mantissa
`(biased >> (exponent + 3)) & 0x0F`, output byte the bitwise NOT of
`sign | exponent << 4 | mantissa` masked to 8 bits.  This definition is
meant to be compared with `encodeMuLaw`, which is embedded from the
source. -/
def muLawSpecG711 (sample : Int) : Int :=
  let sign : Int := if sample < 0 then 0x80 else 0
  let magnitude := if sample < 0 then -sample else sample
  let magnitude := if magnitude > 32635 then 32635 else magnitude
  let biased := magnitude + 132
  let exponent : Nat :=
    if biased > 0x7FFF then 7
    else if biased > 0x3FFF then 6
    else if biased > 0x1FFF then 5
    else if biased > 0x0FFF then 4
    else if biased > 0x07FF then 3
    else if biased > 0x03FF then 2
    else if biased > 0x01FF then 1
    else 0
  let mantissa := jsAnd (jsShr biased (exponent + 3)) 0x0F
  jsAnd (jsNot (jsOr (jsOr sign (jsShl (exponent : Int) 4)) mantissa)) 0xFF

/-! ### The format sniffer (source lines 123-141) -/

/-- The four values the sniffer can return. -/
inductive AudioFormat where
  | mp3
  | wav
  | s16le
  | unknown
deriving DecidableEq, Repr

/-- Source function `detectAudioFormat` (lines 123-141).  A JavaScript
`Buffer` is a finite byte sequence, embedded as `List Nat`; `buffer[i]`
for an index below the length is `List.getD i 0`. -/
def detectAudioFormat (buffer : List Nat) : AudioFormat :=
  if buffer.length < 4 then .unknown
  else if buffer.getD 0 0 = 0x49 ∧ buffer.getD 1 0 = 0x44 ∧ buffer.getD 2 0 = 0x33 then .mp3
  else if buffer.getD 0 0 = 0xFF ∧ natAndAux 32 (buffer.getD 1 0) 0xE0 = 0xE0 then .mp3
  else if buffer.getD 0 0 = 0x52 ∧ buffer.getD 1 0 = 0x49 ∧
          buffer.getD 2 0 = 0x46 ∧ buffer.getD 3 0 = 0x46 then .wav
  else .s16le

/-- Modelled from the words of the claim about the sniffer: shorter than 4
bytes gives unknown; ID3 prefix or 0xFF with the top 3 bits of byte 1 set
gives mp3; RIFF prefix gives wav; every other buffer of length at least 4
gives s16le; checked in this order with the first match winning. -/
def detectSpec (buffer : List Nat) : AudioFormat :=
  if buffer.length < 4 then .unknown
  else if (buffer.getD 0 0 = 0x49 ∧ buffer.getD 1 0 = 0x44 ∧ buffer.getD 2 0 = 0x33) ∨
          (buffer.getD 0 0 = 0xFF ∧ natAndAux 32 (buffer.getD 1 0) 0xE0 = 0xE0) then .mp3
  else if buffer.getD 0 0 = 0x52 ∧ buffer.getD 1 0 = 0x49 ∧
          buffer.getD 2 0 = 0x46 ∧ buffer.getD 3 0 = 0x46 then .wav
  else .s16le

/-! ### The transcoding pipeline model (source lines 149-274)

The wavefile library and the ffmpeg subprocess are external collaborators;
they are abstracted as the fields of `WaveLib` and the `ffmpegRun` field
of `ConvEnv`.  The control flow of `convertToUlaw` is embedded from the
source on top of these abstract collaborators. -/

/-- The `fmt` record of a parsed `WaveFile` object (read at line 174). -/
structure WaveFmt where
  sampleRate : Nat
  numChannels : Nat
  bitsPerSample : Nat
deriving DecidableEq, Repr

/-- A parsed `WaveFile` object: its format record and its sample data,
kept as one list of signed 16-bit samples per channel (the de-interleaved
view that `getSamples(false, Int16Array)` exposes; a mono file has exactly
one channel list). -/
structure WaveData where
  fmt : WaveFmt
  channels : List (List Int)
deriving DecidableEq, Repr

/-- The wavefile library as an abstract collaborator.
`fromBuffer` models `wav.fromBuffer` (may throw, hence `Except`),
`toSampleRate` models `wav.toSampleRate` (may throw),
`scratchSamples` models how `wav.fromScratch` interprets the raw byte
payload it is handed as its sample array. -/
structure WaveLib where
  fromBuffer : List Nat → Except String WaveData
  toSampleRate : WaveData → Nat → Except String WaveData
  scratchSamples : List Nat → List Int

/-- The object built by `wav.fromScratch(1, 24000, '16', audioBuffer)` at
line 169: headerless raw PCM assumed to be 24000 Hz, mono, 16-bit. -/
def fromScratchRaw (lib : WaveLib) (buf : List Nat) : WaveData :=
  ⟨⟨24000, 1, 16⟩, [lib.scratchSamples buf]⟩

/-- Outcome of one ffmpeg subprocess invocation: either the process ran
and exited with a code, collected stdout and collected stderr text, or the
spawn itself failed (the `error` event, for example a missing
executable). -/
inductive FfmpegOutcome where
  | exited (code : Nat) (stdout : List Nat) (stderr : String)
  | procError (msg : String)

/-- The environment of one `convertToUlaw` call: the wavefile library and
the ffmpeg engine, keyed by the argument list and the input bytes. -/
structure ConvEnv where
  wave : WaveLib
  ffmpegRun : List String → List Nat → FfmpegOutcome

/-- Result of `convertToUlaw`: the resolved byte buffer or the message of
the error the returned promise rejects with. -/
inductive ConvResult where
  | ok (bytes : List Nat)
  | err (msg : String)
deriving DecidableEq, Repr

/-- The ffmpeg argument lists of lines 222-237: one fixed list for the raw
s16le fallback, another for mp3 or wav input. -/
def ffmpegArgs (sourceFormat : AudioFormat) : List String :=
  if sourceFormat = .s16le then
    ["-f", "s16le", "-ar", "24000", "-ac", "1", "-i", "pipe:0",
     "-ar", "8000", "-ac", "1", "-acodec", "pcm_mulaw", "-f", "mulaw",
     "-loglevel", "error", "pipe:1"]
  else
    ["-i", "pipe:0",
     "-ar", "8000", "-ac", "1", "-acodec", "pcm_mulaw", "-f", "mulaw",
     "-af", "volume=2.0",
     "-loglevel", "error", "pipe:1"]

/-- The ffmpeg stage of lines 218-268: spawn ffmpeg with the arguments
selected by the source format, feed the input buffer, resolve with the
collected stdout on exit code 0, reject with the messages written at lines
255 and 262 otherwise. -/
def runFfmpeg (env : ConvEnv) (sourceFormat : AudioFormat) (buf : List Nat) : ConvResult :=
  match env.ffmpegRun (ffmpegArgs sourceFormat) buf with
  | .exited 0 out _ => .ok out
  | .exited code _ stderr =>
      .err ("ffmpeg exited with code " ++ toString code ++ ": " ++ stderr)
  | .procError m => .err ("ffmpeg process error: " ++ m)

/-- The container decoding of lines 157-171: for detected wav, parse the
buffer (a parse failure propagates to the enclosing catch); for detected
unknown, try to parse and on failure fall back to
`fromScratch(1, 24000, '16', buffer)`. -/
def decodeWave (env : ConvEnv) (sourceFormat : AudioFormat) (buf : List Nat) :
    Except String WaveData :=
  if sourceFormat = .wav then env.wave.fromBuffer buf
  else
    match env.wave.fromBuffer buf with
    | .ok w => .ok w
    | .error _ => .ok (fromScratchRaw env.wave buf)

/-- Lines 186-192: `getSamples(false, Int16Array)` followed by taking the
first channel when several channels are present; for a mono file the
single channel list is used directly. -/
def firstChannel (w : WaveData) : List Int := w.channels.headD []

/-- The manual encoding loop of lines 194-201: one output byte per sample.
`encodeMuLaw` already masks its result to 8 bits, so storing it into the
output `Buffer` is `Int.toNat`. -/
def encodeSamples (samples : List Int) : List Nat :=
  samples.map fun s => (encodeMuLaw s).toNat

/-- The in-process attempt of lines 156-205 (the body of the inner try):
decode the container, resample with `toSampleRate(8000)` when the declared
sample rate differs from 8000, take the first channel and encode each
sample.  Any error is the exception the inner catch at line 206
receives. -/
def inProcessConvert (env : ConvEnv) (sourceFormat : AudioFormat) (buf : List Nat) :
    Except String (List Nat) :=
  match decodeWave env sourceFormat buf with
  | .error e => .error e
  | .ok w =>
      match (if w.fmt.sampleRate ≠ 8000 then env.wave.toSampleRate w 8000 else .ok w) with
      | .error e => .error e
      | .ok w2 => .ok (encodeSamples (firstChannel w2))

/-- Source function `convertToUlaw` (lines 149-274).  For detected wav or
unknown the in-process path is attempted first; its failure is absorbed by
the inner catch (line 206), which only logs and falls through to the
ffmpeg stage.  Every other detected format goes to the ffmpeg stage
directly.  The ffmpeg promise is returned without `await`, so its
rejection reaches the caller as produced by `runFfmpeg`; the catch of
lines 270-273 (which would prepend "Audio format conversion failed: ")
only observes synchronous exceptions and no reachable path raises one. -/
def convertToUlaw (env : ConvEnv) (buf : List Nat) (sourceFormat : AudioFormat) : ConvResult :=
  if sourceFormat = .wav ∨ sourceFormat = .unknown then
    match inProcessConvert env sourceFormat buf with
    | .ok bytes => .ok bytes
    | .error _ => runFfmpeg env sourceFormat buf
  else
    runFfmpeg env sourceFormat buf

/-! ### The provider adapter `sarvamTTS` (source lines 18-116)

The HTTP fetch, the JSON parsing and the base64 decoding are external
collaborators, abstracted in `SarvamEnv`.  The `text` argument only flows
into the request body and the logs, so it does not appear in the model. -/

/-- What the fetch of lines 39-70 delivered: a non-ok HTTP response
(status and status text, line 66) or the parsed JSON `audios` array. -/
inductive FetchOutcome where
  | httpError (status : Nat) (statusText : String) (bodyText : String)
  | jsonOk (audios : List String)

/-- The environment of one `sarvamTTS` call. -/
structure SarvamEnv where
  apiKey : Option String
  fetched : FetchOutcome
  b64decode : String → List Nat
  conv : ConvEnv

/-- The caller facing options object (only the field the embedded control
flow reads; `language`, `speaker` and `format` only flow into the request
and the logs). -/
structure TtsOptions where
  skipConversion : Bool

/-- The try block of `sarvamTTS` (lines 19-99). -/
def sarvamTTSBody (env : SarvamEnv) (options : TtsOptions) : Except String (List Nat) :=
  match env.apiKey with
  | none => .error "SARVAM_API_KEY not configured in environment variables"
  | some _ =>
      match env.fetched with
      | .httpError status statusText _ =>
          .error ("Sarvam API error: " ++ toString status ++ " - " ++ statusText)
      | .jsonOk audios =>
          let base64Audio := audios.headD ""
          if base64Audio = "" then .error "No audio data in Sarvam response"
          else
            let audioBuf := env.b64decode base64Audio
            let actualFormat := detectAudioFormat audioBuf
            if options.skipConversion then .ok audioBuf
            else
              match convertToUlaw env.conv audioBuf actualFormat with
              | .ok u => .ok u
              | .err m => .error m

/-- Contiguous sublist test: does `pat` occur somewhere in the list? -/
def listContains (pat : List Char) : List Char → Bool
  | [] => pat.isEmpty
  | c :: rest => pat.isPrefixOf (c :: rest) || listContains pat rest

/-- Substring test used by the catch block of `sarvamTTS`
(`error.message.includes(...)`). -/
def containsSub (s pat : String) : Bool := listContains pat.toList s.toList

/-- The catch block of lines 100-115: remap a few well known error
messages, rethrow everything else unchanged. -/
def remapSarvamError (msg : String) : String :=
  if containsSub msg "SARVAM_API_KEY" then
    "Sarvam API key is missing. Please set SARVAM_API_KEY in your environment variables."
  else if containsSub msg "ENOTFOUND" || containsSub msg "ETIMEDOUT" then
    "Network error: Unable to reach Sarvam API. Please check your internet connection."
  else if containsSub msg "401" then
    "Authentication failed: Invalid Sarvam API key."
  else if containsSub msg "429" then
    "Rate limit exceeded: Too many requests to Sarvam API."
  else msg

/-- Source function `sarvamTTS` (lines 18-116): the try block with the
catch block applied to its failures. -/
def sarvamTTS (env : SarvamEnv) (options : TtsOptions) : Except String (List Nat) :=
  match sarvamTTSBody env options with
  | .ok b => .ok b
  | .error m => .error (remapSarvamError m)

/-! ### Concrete test environments

Instantiations of the abstract collaborators used to evaluate the theorems
below on closed inputs.  The failing components make the control flow
visible: a result can only have come from the stage that produced it. -/

/-- A wavefile library whose parse always throws. -/
def waveFailLib : WaveLib := ⟨fun _ => .error "wave parse failed", fun w _ => .ok w, fun _ => []⟩

/-- Environment whose ffmpeg process exits with code 1 and stderr text `boom`. -/
def ffmpegExit1Env : ConvEnv := ⟨waveFailLib, fun _ _ => .exited 1 [] "boom"⟩

/-- Environment whose ffmpeg spawn fails (missing executable). -/
def ffmpegSpawnFailEnv : ConvEnv := ⟨waveFailLib, fun _ _ => .procError "spawn ffmpeg ENOENT"⟩

/-- A buffer carrying an MPEG frame sync signature. -/
def mp3Buf : List Nat := [0xFF, 0xFB, 0x90, 0x00]

/-- Environment whose wavefile parse throws `truncated RIFF` and whose
ffmpeg succeeds with empty output. -/
def parseFailEnv : ConvEnv :=
  ⟨⟨fun _ => .error "truncated RIFF", fun w _ => .ok w, fun _ => []⟩, fun _ _ => .exited 0 [] ""⟩

/-- A four byte buffer that carries the RIFF signature and nothing else. -/
def riffBuf : List Nat := [0x52, 0x49, 0x46, 0x46]

/-- Environment whose ffmpeg reports through its output whether the
argument list it was invoked with contains the gain filter. -/
def gainProbeEnv : ConvEnv :=
  ⟨waveFailLib, fun args _ => .exited 0 (if "volume=2.0" ∈ args then [1] else [0]) ""⟩

/-- A parsed mono wave object already at 8000 Hz. -/
def wave8k : WaveData := ⟨⟨8000, 1, 16⟩, [[0, 1000, -1000]]⟩

/-- Environment that decodes every buffer to `wave8k` and whose resampler
and ffmpeg both fail loudly if consulted. -/
def env8k : ConvEnv :=
  ⟨⟨fun _ => .ok wave8k, fun _ _ => .error "resampler must not run", fun _ => []⟩,
   fun _ _ => .exited 1 [] "ffmpeg must not run"⟩

/-- A provider environment with a configured key, one base64 audio string
and a conversion engine that can only fail: a successful result can only
be the raw decoded buffer. -/
def sarvamSkipEnv : SarvamEnv := ⟨some "key", .jsonOk ["QUJD"], fun _ => [65, 66, 67], ffmpegExit1Env⟩

/-! ### Helper lemmas -/

/-- AND of a 32-bit pattern below 128 with the mask 128 is zero. -/
theorem natAnd128_low (u : Nat) (h : u < 128) : natAndAux 32 u 128 = 0 := by
  have hA : ∀ i : Fin 128, natAndAux 32 i.val 128 = 0 := by decide
  exact hA ⟨u, h⟩

/-- AND of a 32-bit pattern in the top 128 values with the mask 128 is 128. -/
theorem natAnd128_high (u : Nat) (h1 : 4294967168 ≤ u) (h2 : u < 4294967296) :
    natAndAux 32 u 128 = 128 := by
  have hB : ∀ i : Fin 128, natAndAux 32 (4294967168 + i.val) 128 = 128 := by decide
  have e : u = 4294967168 + (u - 4294967168) := by omega
  rw [e]
  exact hB ⟨u - 4294967168, by omega⟩

/-- The sign extraction `(sample >> 8) & 0x80` of line 287 equals 0x80
exactly on the negative signed 16-bit samples. -/
theorem jsAnd_shr8_sign (s : Int) (h1 : -32768 ≤ s) (h2 : s ≤ 32767) :
    jsAnd (jsShr s 8) 128 = if s < 0 then 128 else 0 := by
  have hx : asInt32 (toUint32 s) = s := by
    unfold asInt32 toUint32; split <;> omega
  have hshr : jsShr s 8 = s / 256 := by
    unfold jsShr; rw [hx]; norm_num
  have h128 : toUint32 128 = 128 := by decide
  rw [hshr]
  unfold jsAnd
  rw [h128]
  by_cases hs : s < 0
  · have hq1 : -128 ≤ s / 256 := by omega
    have hq2 : s / 256 < 0 := by omega
    have ht : toUint32 (s / 256) = (s / 256 + 4294967296).toNat := by
      unfold toUint32; omega
    rw [ht, natAnd128_high _ (by omega) (by omega), if_pos hs]
    decide
  · have hq1 : 0 ≤ s / 256 := by omega
    have hq2 : s / 256 < 128 := by omega
    have ht : toUint32 (s / 256) = (s / 256).toNat := by
      unfold toUint32; omega
    rw [ht, natAnd128_low _ (by omega), if_neg hs]
    decide

/-- The ffmpeg stage resolves with a buffer exactly when the process
exited with code 0 and that buffer on stdout. -/
theorem runFfmpeg_ok_iff (env : ConvEnv) (fmt : AudioFormat) (buf out : List Nat) :
    runFfmpeg env fmt buf = .ok out ↔
      ∃ stderr, env.ffmpegRun (ffmpegArgs fmt) buf = .exited 0 out stderr := by
  unfold runFfmpeg
  cases hrun : env.ffmpegRun (ffmpegArgs fmt) buf with
  | exited code stdout stderr =>
      cases code with
      | zero =>
          constructor
          · intro h
            cases h
            exact ⟨stderr, rfl⟩
          · rintro ⟨e, he⟩
            cases he
            rfl
      | succ n =>
          constructor
          · intro h
            cases h
          · rintro ⟨e, he⟩
            cases he
  | procError m =>
      constructor
      · intro h
        cases h
      · rintro ⟨e, he⟩
        cases he

/-- A non-zero ffmpeg exit rejects with the message of line 255. -/
theorem runFfmpeg_exit_err (env : ConvEnv) (fmt : AudioFormat) (buf : List Nat)
    (code : Nat) (stdout : List Nat) (stderr : String)
    (h : env.ffmpegRun (ffmpegArgs fmt) buf = .exited code stdout stderr) (hc : code ≠ 0) :
    runFfmpeg env fmt buf = .err ("ffmpeg exited with code " ++ toString code ++ ": " ++ stderr) := by
  unfold runFfmpeg
  rw [h]
  cases code with
  | zero => exact absurd rfl hc
  | succ n => rfl

/-- A spawn failure rejects with the message of line 262. -/
theorem runFfmpeg_proc_err (env : ConvEnv) (fmt : AudioFormat) (buf : List Nat) (msg : String)
    (h : env.ffmpegRun (ffmpegArgs fmt) buf = .procError msg) :
    runFfmpeg env fmt buf = .err ("ffmpeg process error: " ++ msg) := by
  unfold runFfmpeg
  rw [h]

/-- When no applicable in-process attempt succeeds, `convertToUlaw` is the
ffmpeg stage. -/
theorem convert_reaches_ffmpeg (env : ConvEnv) (buf : List Nat) (fmt : AudioFormat)
    (h : ¬ ∃ b, (fmt = .wav ∨ fmt = .unknown) ∧ inProcessConvert env fmt buf = .ok b) :
    convertToUlaw env buf fmt = runFfmpeg env fmt buf := by
  unfold convertToUlaw
  by_cases hf : fmt = .wav ∨ fmt = .unknown
  · rw [if_pos hf]
    cases hip : inProcessConvert env fmt buf with
    | ok b => exact absurd ⟨b, hf, hip⟩ h
    | error e => rfl
  · rw [if_neg hf]

/-! ### Claim theorems -/

/-- C1: on every signed 16-bit input sample, `encodeMuLaw` (embedded from
the source) computes exactly the algorithm spelled out in spec section
4.4 (`muLawSpecG711`, written from the words of the spec): sign bit 0x80
for negative samples whose magnitude is then negated, clip to 32635, bias
132, the explicit threshold chain for the exponent, the 4-bit mantissa,
and the inverted byte masked to 8 bits. -/
theorem encodeMuLaw_is_G711 (s : Int) (h1 : -32768 ≤ s) (h2 : s ≤ 32767) :
    encodeMuLaw s = muLawSpecG711 s := by
  have hsign := jsAnd_shr8_sign s h1 h2
  unfold encodeMuLaw muLawSpecG711
  rw [hsign]
  by_cases hs : s < 0
  · simp only [if_pos hs]
    rw [if_pos (show (128 : Int) ≠ 0 by decide)]
  · simp only [if_neg hs]
    rw [if_neg (show ¬ (0 : Int) ≠ 0 by decide)]

/-- C1 witness: the theorem instantiated at the concrete sample -1234. -/
theorem encodeMuLaw_is_G711_witness :
    (-32768 ≤ (-1234 : Int) ∧ (-1234 : Int) ≤ 32767) ∧
    encodeMuLaw (-1234) = muLawSpecG711 (-1234) :=
  ⟨by decide, encodeMuLaw_is_G711 (-1234) (by decide) (by decide)⟩

/-- C2: `detectAudioFormat` is total on all byte buffers (it is a Lean
function, so it never throws) and classifies every buffer exactly as the
claim describes, captured by `detectSpec`: length below 4 gives unknown,
then ID3 or MPEG frame sync gives mp3, then RIFF gives wav, every other
buffer of length at least 4 gives s16le, first match winning. -/
theorem detectAudioFormat_eq_spec : ∀ b : List Nat, detectAudioFormat b = detectSpec b := by
  intro b
  unfold detectAudioFormat detectSpec
  by_cases hl : b.length < 4
  · rw [if_pos hl, if_pos hl]
  · rw [if_neg hl, if_neg hl]
    by_cases hA : b.getD 0 0 = 0x49 ∧ b.getD 1 0 = 0x44 ∧ b.getD 2 0 = 0x33
    · rw [if_pos hA, if_pos (Or.inl hA)]
    · by_cases hB : b.getD 0 0 = 0xFF ∧ natAndAux 32 (b.getD 1 0) 0xE0 = 0xE0
      · rw [if_neg hA, if_pos hB, if_pos (Or.inr hB)]
      · rw [if_neg hA, if_neg hB, if_neg (not_or.mpr ⟨hA, hB⟩)]

/-- C3 counterexample: for an mp3 buffer whose ffmpeg invocation exits
with code 1, `convertToUlaw` fails with the raw message written at line
255 of the source, and the umbrella text `Audio format conversion failed`
of the catch block does not occur anywhere in that message, because the
returned promise is not awaited inside the try block and its rejection
never reaches the catch.  This refutes the claim that every conversion
stage failure is wrapped in the umbrella error. -/
theorem convertToUlaw_no_umbrella_cex :
    convertToUlaw ffmpegExit1Env mp3Buf .mp3 = .err "ffmpeg exited with code 1: boom" ∧
    detectAudioFormat mp3Buf = .mp3 ∧
    listContains "Audio format conversion failed".toList
      "ffmpeg exited with code 1: boom".toList = false := by
  refine ⟨rfl, by decide, by decide⟩

/-- C3 amended: a stage failure is never silently swallowed and never
replaced by a fabricated buffer: `convertToUlaw` resolves with a buffer
only when the in-process attempt or the ffmpeg invocation actually
produced it, and when the terminal ffmpeg stage fails the result is a
single error carrying the original cause (the exit code with the captured
stderr, or the spawn error message) - but this error is the raw stage
error, not wrapped in the `Audio format conversion failed` umbrella. -/
theorem convertToUlaw_failure_propagation (env : ConvEnv) (buf : List Nat) (fmt : AudioFormat) :
    (∀ out, convertToUlaw env buf fmt = .ok out →
        inProcessConvert env fmt buf = .ok out ∨
        ∃ stderr, env.ffmpegRun (ffmpegArgs fmt) buf = .exited 0 out stderr) ∧
    (∀ code stdout stderr, env.ffmpegRun (ffmpegArgs fmt) buf = .exited code stdout stderr →
        code ≠ 0 →
        (¬ ∃ b, (fmt = .wav ∨ fmt = .unknown) ∧ inProcessConvert env fmt buf = .ok b) →
        convertToUlaw env buf fmt =
          .err ("ffmpeg exited with code " ++ toString code ++ ": " ++ stderr)) ∧
    (∀ msg, env.ffmpegRun (ffmpegArgs fmt) buf = .procError msg →
        (¬ ∃ b, (fmt = .wav ∨ fmt = .unknown) ∧ inProcessConvert env fmt buf = .ok b) →
        convertToUlaw env buf fmt = .err ("ffmpeg process error: " ++ msg)) := by
  refine ⟨?_, ?_, ?_⟩
  · intro out h
    unfold convertToUlaw at h
    by_cases hf : fmt = .wav ∨ fmt = .unknown
    · rw [if_pos hf] at h
      cases hip : inProcessConvert env fmt buf with
      | ok b =>
          rw [hip] at h
          injection h with h2
          subst h2
          exact Or.inl rfl
      | error e =>
          rw [hip] at h
          exact Or.inr ((runFfmpeg_ok_iff env fmt buf out).mp h)
    · rw [if_neg hf] at h
      exact Or.inr ((runFfmpeg_ok_iff env fmt buf out).mp h)
  · intro code stdout stderr hrun hc hnip
    rw [convert_reaches_ffmpeg env buf fmt hnip]
    exact runFfmpeg_exit_err env fmt buf code stdout stderr hrun hc
  · intro msg hrun hnip
    rw [convert_reaches_ffmpeg env buf fmt hnip]
    exact runFfmpeg_proc_err env fmt buf msg hrun

/-- C3 witness: the amended theorem evaluated on an mp3 buffer in an
environment whose ffmpeg spawn fails. -/
theorem convertToUlaw_failure_propagation_witness :
    convertToUlaw ffmpegSpawnFailEnv mp3Buf .mp3 =
      .err ("ffmpeg process error: " ++ "spawn ffmpeg ENOENT") := by
  refine (convertToUlaw_failure_propagation ffmpegSpawnFailEnv mp3Buf .mp3).2.2
    "spawn ffmpeg ENOENT" rfl ?_
  rintro ⟨b, h | h, -⟩ <;> exact AudioFormat.noConfusion h

/-- C4: on a detected mp3 buffer, `convertToUlaw` is exactly the ffmpeg
stage, for every environment; in particular the result does not depend on
the wavefile library component at all, so the in-process wavefile decode
path is never attempted. -/
theorem convertToUlaw_mp3_ffmpeg (env : ConvEnv) (buf : List Nat) :
    convertToUlaw env buf .mp3 = runFfmpeg env .mp3 buf ∧
    ∀ lib : WaveLib, convertToUlaw ⟨lib, env.ffmpegRun⟩ buf .mp3 = convertToUlaw env buf .mp3 :=
  ⟨rfl, fun _ => rfl⟩

/-- C5 counterexample: a RIFF-prefixed buffer is detected as wav, and when
its container parse throws, the in-process decoder FAILS instead of
falling back to headerless raw PCM: the raw PCM fallback of line 169 only
exists in the unknown-format branch.  This refutes the claim for buffers
on the in-process path with detected format wav. -/
theorem decodeWave_wav_no_fallback_cex :
    detectAudioFormat riffBuf = .wav ∧
    decodeWave parseFailEnv .wav riffBuf = .error "truncated RIFF" ∧
    decodeWave parseFailEnv .wav riffBuf ≠ .ok (fromScratchRaw parseFailEnv.wave riffBuf) := by
  refine ⟨by decide, rfl, fun h => Except.noConfusion h⟩

/-- C5 amended: only for buffers on the in-process decode path with
detected format unknown does a WAV container parse failure fall back to
treating the whole payload as headerless raw PCM at the fixed assumed
24000 Hz, mono, 16-bit (rather than failing the decode); for detected
format wav the same parse failure fails the in-process decode. -/
theorem decodeWave_unknown_fallback (env : ConvEnv) (buf : List Nat) (e : String)
    (h : env.wave.fromBuffer buf = .error e) :
    decodeWave env .unknown buf = .ok (fromScratchRaw env.wave buf) ∧
    (fromScratchRaw env.wave buf).fmt = ⟨24000, 1, 16⟩ ∧
    decodeWave env .wav buf = .error e := by
  refine ⟨?_, rfl, ?_⟩
  · unfold decodeWave
    rw [if_neg (by decide : ¬ (AudioFormat.unknown = AudioFormat.wav)), h]
  · unfold decodeWave
    rw [if_pos rfl, h]

/-- C5 witness: the amended theorem evaluated in an environment whose
parse always throws. -/
theorem decodeWave_unknown_fallback_witness :
    decodeWave parseFailEnv .unknown [1, 2, 3, 4, 5] =
      .ok (fromScratchRaw parseFailEnv.wave [1, 2, 3, 4, 5]) ∧
    (fromScratchRaw parseFailEnv.wave [1, 2, 3, 4, 5]).fmt = ⟨24000, 1, 16⟩ := by
  have h := decodeWave_unknown_fallback parseFailEnv [1, 2, 3, 4, 5] "truncated RIFF" rfl
  exact ⟨h.1, h.2.1⟩

/-- C6 counterexample: the s16le invocation of the external engine runs
without the 2x gain filter: in an environment whose engine reports whether
`volume=2.0` is among its arguments, the s16le conversion reports that it
is not, and indeed the filter is absent from the s16le argument list while
present in the wav/mp3 fallback list.  This refutes the claim that every
invocation applies the fixed 2x gain boost. -/
theorem ffmpeg_s16le_no_gain_cex :
    convertToUlaw gainProbeEnv [0, 1, 2, 3] .s16le = .ok [0] ∧
    "volume=2.0" ∉ ffmpegArgs .s16le ∧
    "volume=2.0" ∈ ffmpegArgs .wav := by
  refine ⟨by decide, by decide, by decide⟩

/-- C6 amended: every invocation of the external decoding engine forces
8000 Hz, 1 channel and mu-law output in one pass (the block
`-ar 8000 -ac 1 -acodec pcm_mulaw -f mulaw` occurs in every argument
list), and the fixed 2x gain boost (`-af volume=2.0`) is applied exactly
on the non-s16le (mp3 or wav fallback) invocations, not on the raw s16le
invocation. -/
theorem ffmpegArgs_target_params (fmt : AudioFormat) :
    (∃ pre post, ffmpegArgs fmt =
        pre ++ ["-ar", "8000", "-ac", "1", "-acodec", "pcm_mulaw", "-f", "mulaw"] ++ post) ∧
    (("-af" ∈ ffmpegArgs fmt ∧ "volume=2.0" ∈ ffmpegArgs fmt) ↔ fmt ≠ .s16le) := by
  cases fmt
  case s16le =>
    exact ⟨⟨["-f", "s16le", "-ar", "24000", "-ac", "1", "-i", "pipe:0"],
      ["-loglevel", "error", "pipe:1"], rfl⟩, by decide⟩
  case mp3 =>
    exact ⟨⟨["-i", "pipe:0"], ["-af", "volume=2.0", "-loglevel", "error", "pipe:1"], rfl⟩, by decide⟩
  case wav =>
    exact ⟨⟨["-i", "pipe:0"], ["-af", "volume=2.0", "-loglevel", "error", "pipe:1"], rfl⟩, by decide⟩
  case unknown =>
    exact ⟨⟨["-i", "pipe:0"], ["-af", "volume=2.0", "-loglevel", "error", "pipe:1"], rfl⟩, by decide⟩

/-- C7: whenever the provider fetch succeeded (a configured key, a JSON
response with a non-empty first base64 audio string) and the options carry
a true `skipConversion` flag, `sarvamTTS` returns the decoded provider
buffer itself, bypassing `convertToUlaw` entirely: the result is the
byte-for-byte output of the base64 decoding, whatever the conversion
environment is. -/
theorem sarvamTTS_skipConversion_raw (env : SarvamEnv) (opts : TtsOptions) (k : String)
    (audios : List String)
    (hk : env.apiKey = some k) (hf : env.fetched = .jsonOk audios)
    (hb : audios.headD "" ≠ "") (hs : opts.skipConversion = true) :
    sarvamTTS env opts = .ok (env.b64decode (audios.headD "")) := by
  unfold sarvamTTS sarvamTTSBody
  rw [hk, hf]
  simp only [if_neg hb, hs, if_pos trivial]

/-- C7 witness: the theorem evaluated in an environment whose conversion
engine can only fail, so the successful result can only be the raw
provider bytes. -/
theorem sarvamTTS_skipConversion_raw_witness :
    sarvamTTS sarvamSkipEnv ⟨true⟩ = .ok [65, 66, 67] :=
  sarvamTTS_skipConversion_raw sarvamSkipEnv ⟨true⟩ "key" ["QUJD"] rfl rfl (by decide) rfl

/-- C8: when the decoded wave object already declares 8000 Hz, the
in-process conversion output is the mu-law encoding of exactly the decoded
sample sequence: `toSampleRate` is not applied and the samples handed to
the encoder are unchanged (the right hand side does not involve the
resampler at all). -/
theorem inProcess_8000_noop (env : ConvEnv) (buf : List Nat) (w : WaveData)
    (hparse : env.wave.fromBuffer buf = .ok w) (hrate : w.fmt.sampleRate = 8000) :
    inProcessConvert env .wav buf = .ok (encodeSamples (firstChannel w)) := by
  unfold inProcessConvert decodeWave
  rw [if_pos rfl, hparse]
  dsimp only
  rw [if_neg (show ¬ w.fmt.sampleRate ≠ 8000 from fun hne => hne hrate)]

/-- C8 witness: the theorem evaluated in an environment whose resampler
fails if consulted: the conversion still succeeds, on the decoded samples
unchanged. -/
theorem inProcess_8000_noop_witness :
    inProcessConvert env8k .wav [9, 9] = .ok (encodeSamples [0, 1000, -1000]) :=
  inProcess_8000_noop env8k [9, 9] wave8k rfl rfl

/-- C9: the mu-law encoder maps the sample 0 to the byte 0xFF, and the
encoded output of an all-zero sample stream is the constant 0xFF
sequence. -/
theorem encodeMuLaw_silence (l : List Int) :
    encodeMuLaw 0 = 255 ∧
    ((∀ x ∈ l, x = 0) → encodeSamples l = List.replicate l.length 255) := by
  refine ⟨by decide, ?_⟩
  intro h
  induction l with
  | nil => rfl
  | cons x t ih =>
      have hx : x = 0 := h x (by simp)
      have ht := ih fun y hy => h y (List.mem_cons_of_mem _ hy)
      subst hx
      simp only [encodeSamples, List.map_cons, List.length_cons, List.replicate_succ] at ht ⊢
      rw [show (encodeMuLaw 0).toNat = 255 by decide, ht]

/-- C9 witness: the theorem evaluated on the concrete stream 0, 0, 0. -/
theorem encodeMuLaw_silence_witness :
    encodeMuLaw 0 = 255 ∧ encodeSamples [0, 0, 0] = [255, 255, 255] := by
  refine ⟨(encodeMuLaw_silence []).1, ?_⟩
  have h := (encodeMuLaw_silence [0, 0, 0]).2 (by decide)
  simpa using h

/-- C10: the preliminary exponent search loop of lines 296-302 is dead
code: `encodeMuLaw` is extensionally (here even definitionally) equal to
`encodeMuLawNoLoop`, the same function with the initial assignment and the
loop removed, because the explicit threshold chain of lines 305-312
unconditionally overwrites the exponent. -/
theorem encodeMuLaw_loop_dead : ∀ s : Int, encodeMuLaw s = encodeMuLawNoLoop s :=
  fun _ => rfl
